import Mathlib

/-!
Verification of the sector-base storage core (disk_backed_storage.rs,
responses.rs, errors.rs) of rust-fil-ffi-toolkit.

The padding codec (storage_proofs::io::fr32) is an external collaborator of
this crate; it is modelled here from the spec (§3: fixed-size logical
elements, historically 32-byte blocks mapped into a slightly-larger
field-safe representation), with the element geometry pinned by the crate's
own test `unsealed_sector_write_and_truncate`: writing 500 unpadded bytes
yields a 504-byte padded file, pad(32) = 33, and the byte that follows a
completed element carries the next data byte shifted left by two bits.
These facts determine 254 data bits per 256-bit element.

Everything else (the DiskManager operations, the allocator, the
configuration profiles, the response-status mapping) is translated directly
from the source.  File-system state is made explicit: a file system maps an
access handle to an optional byte-list file content, and each fallible
internal call of the Rust code (codec computation, padded write, set_len,
directory/file creation) takes an explicit fault oracle resolving the
nondeterminism of real I/O, so that the source's error mapping can be
followed branch by branch.
-/

namespace SectorBase

/-- Modelled from the spec: number of data bits per padding element
(Fr32: 254 data bits carried in each 256-bit field-safe element).
Pinned by the in-repo test: 500 unpadded bytes pad to 504 bytes. -/
def dataBits : Nat := 254

/-- Modelled from the spec: total bits of one padded element. -/
def elementBits : Nat := 256

/-- Modelled from the spec: padded bit position corresponding to an
unpadded bit position, i.e. each full run of `dataBits` data bits grows to
`elementBits` bits on disk and a trailing partial run keeps its length. -/
def expandBitPos (b : Nat) : Nat :=
  elementBits * (b / dataBits) + b % dataBits

/-- Modelled from the spec: unpadded bit position corresponding to a padded
bit position (inverse direction of `expandBitPos`).  All positions at which
the codec is consulted by this crate are byte-aligned, where the residue
`p % elementBits` is a multiple of 8 and hence below `dataBits`. -/
def contractBitPos (p : Nat) : Nat :=
  dataBits * (p / elementBits) + p % elementBits

/-- Modelled from the spec: `FR32_PADDING_MAP.expand_bytes` — padded byte
length of `u` unpadded bytes, rounding the final partial byte up. -/
def expand_bytes (u : Nat) : Nat :=
  (expandBitPos (8 * u) + 7) / 8

/-- Modelled from the spec: `storage_proofs::io::fr32::unpadded_bytes` —
the largest unpadded byte count representable in a padded file of `p`
bytes, rounding the final partial byte down. -/
def unpadded_bytes (p : Nat) : Nat :=
  contractBitPos (8 * p) / 8

/-! ### Bit-level content model of the codec

Files are byte lists; each byte is a `Nat` below 256.  Bits are listed
least-significant first within each byte, matching the codec's bit order
(pinned by the in-repo test: after one full element the next padded byte is
the next data byte shifted left by two bits). -/

/-- The eight bits of a byte, least significant first. -/
def byteBits (b : Nat) : List Bool :=
  (List.range 8).map (fun i => b.testBit i)

/-- Bit stream of a byte list. -/
def bytesToBits : List Nat → List Bool
  | [] => []
  | b :: bs => byteBits b ++ bytesToBits bs

/-- Modelled from the spec: insert the two zero padding bits after every
completed run of `dataBits` data bits.  `k` counts the data bits already
emitted into the current element. -/
def padBitsAux (k : Nat) : List Bool → List Bool
  | [] => []
  | b :: bs =>
    if k + 1 = dataBits then b :: false :: false :: padBitsAux 0 bs
    else b :: padBitsAux (k + 1) bs

/-- Padded bit stream of an unpadded bit stream. -/
def padBits (d : List Bool) : List Bool := padBitsAux 0 d

/-- Modelled from the spec: drop the two padding bits of every completed
element.  `k` is the current bit position within the element (0‥255). -/
def unpadBitsAux (k : Nat) : List Bool → List Bool
  | [] => []
  | b :: bs =>
    if k < dataBits then b :: unpadBitsAux (k + 1) bs
    else if k + 1 = elementBits then unpadBitsAux 0 bs
    else unpadBitsAux (k + 1) bs

/-- Unpadded data bit stream recovered from a padded bit stream. -/
def unpadBits (l : List Bool) : List Bool := unpadBitsAux 0 l

/-- Regroup a bit stream into bytes, zero-filling the final partial byte.
`acc` is the byte under construction and `k` the next bit weight (0‥7). -/
def bitsToBytesAux (acc k : Nat) : List Bool → List Nat
  | [] => if k = 0 then [] else [acc]
  | b :: bs =>
    let acc2 := acc + (if b then 2 ^ k else 0)
    if k = 7 then acc2 :: bitsToBytesAux 0 0 bs
    else bitsToBytesAux acc2 (k + 1) bs

/-- Byte list written to disk for a given bit stream. -/
def bitsToBytes (l : List Bool) : List Nat := bitsToBytesAux 0 0 l

/-! ### Error taxonomy (errors.rs) and response status (responses.rs) -/

/-- `SectorManagerErr` from errors.rs. -/
inductive SectorManagerErr
  | UnclassifiedError (msg : String)
  | CallerError (msg : String)
  | ReceiverError (msg : String)
deriving DecidableEq

/-- `SBResponseStatus` from responses.rs. -/
inductive SBResponseStatus
  | SBNoError
  | SBUnclassifiedError
  | SBCallerError
  | SBReceiverError
deriving DecidableEq

/-- `to_response_status` from responses.rs: the status a
`Result<T, SectorManagerErr>` is projected to at the boundary. -/
def to_response_status {α : Type} (r : Except SectorManagerErr α) : SBResponseStatus :=
  match r with
  | Except.ok _ => SBResponseStatus.SBNoError
  | Except.error (SectorManagerErr.UnclassifiedError _) => SBResponseStatus.SBUnclassifiedError
  | Except.error (SectorManagerErr.CallerError _) => SBResponseStatus.SBCallerError
  | Except.error (SectorManagerErr.ReceiverError _) => SBResponseStatus.SBReceiverError

/-- Holds of results that are not the reserved catch-all error. -/
def notUnclassified {α : Type} (r : Except SectorManagerErr α) : Prop :=
  match r with
  | Except.error (SectorManagerErr.UnclassifiedError _) => False
  | _ => True

/-! ### File system and fault model -/

/-- Explicit file-system state: an access handle resolves to the content of
its backing file, or to nothing when no such file exists (the case in which
the Rust `OpenOptions::open` fails and the operation reports a
CallerError). -/
def FS : Type := Nat → Option (List Nat)

/-- Point update of the file system. -/
def fsUpdate (fs : FS) (a : Nat) (v : Option (List Nat)) : FS :=
  fun x => if x = a then v else fs x

/-- Message carried by the CallerError when an access cannot be opened
(the Rust code formats the underlying `io::Error`). -/
def openFailMsg : String := "Os ( code: 2, kind: NotFound )"

/-- Fault oracle for the fallible internal calls of the manager
operations: `codecErr` makes the codec computation
(`target_unpadded_bytes` / `almost_truncate_to_unpadded_bytes`) fail,
`writeErr` makes `write_padded` fail, `setLenErr` makes `File::set_len`
fail; `none` means the call succeeds. -/
structure IoFaults where
  codecErr : Option String
  writeErr : Option String
  setLenErr : Option String
deriving DecidableEq

/-- The fault-free run: every internal call succeeds. -/
def noFaults : IoFaults := ⟨none, none, none⟩

/-! ### Codec operations used by the manager (external collaborators) -/

/-- Modelled from the spec: `target_unpadded_bytes` — read the padded file
length and contract it to the unpadded logical length. -/
def target_unpadded_bytes (f : List Nat) : Nat :=
  unpadded_bytes f.length

/-- Logical data bytes currently held by a padded file: unpad the bit
stream and keep the whole bytes accounted by the byte-level contraction
(bits past that point are zero fill or stale residue, not data). -/
def fileData (f : List Nat) : List Nat :=
  bitsToBytes (List.take (8 * unpadded_bytes f.length) (unpadBits (bytesToBits f)))

/-- Modelled from the spec: `write_padded` — append `data` to the existing
unpadded content across element boundaries and return the pair (new padded
file content, reported written count).  The reported count is the number of
unpadded input bytes consumed, as pinned by the in-repo test
`unsealed_sector_write_and_truncate`, which asserts that writing 500 bytes
reports 500 written while the padded file grows to 504 bytes. -/
def write_padded (data f : List Nat) : List Nat × Nat :=
  (bitsToBytes (padBits (bytesToBits (fileData f ++ data))), data.length)

/-- Modelled from the spec: `almost_truncate_to_unpadded_bytes` — compute
the padded byte length corresponding to `size` unpadded bytes, to which the
caller then sets the file length directly.  The in-repo test pins that the
byte content is not rewritten: after truncating the 500-byte write to 32
unpadded bytes the trailing kept byte still equals the old value
`contents[32] << 2`, so stale bits beyond the logical content survive. -/
def almost_truncate_to_unpadded_bytes (size : Nat) : Nat :=
  expand_bytes size

/-- `File::set_len`: cut the file to `m` bytes, or zero-extend it when `m`
exceeds the current length. -/
def setLen (f : List Nat) (m : Nat) : List Nat :=
  if m ≤ f.length then f.take m else f ++ List.replicate (m - f.length) 0

/-! ### DiskManager operations (disk_backed_storage.rs) -/

/-- `DiskManager::num_unsealed_bytes`: open read-only (CallerError on
failure), then contract the padded length (ReceiverError on codec
failure). -/
def num_unsealed_bytes (io : IoFaults) (fs : FS) (access : Nat) :
    Except SectorManagerErr Nat × FS :=
  match fs access with
  | none => (Except.error (SectorManagerErr.CallerError openFailMsg), fs)
  | some f =>
    match io.codecErr with
    | some e => (Except.error (SectorManagerErr.ReceiverError e), fs)
    | none => (Except.ok (target_unpadded_bytes f), fs)

/-- `DiskManager::write_unsealed`: open read+write (CallerError on
failure), then pad-encode and append (ReceiverError on failure), returning
the count reported by `write_padded`.  The capacity check against the
sector's configured maximum is absent, exactly as in the source (its TODO
says the write should instead be refused with a reported count of 0). -/
def write_unsealed (io : IoFaults) (fs : FS) (access : Nat) (data : List Nat) :
    Except SectorManagerErr Nat × FS :=
  match fs access with
  | none => (Except.error (SectorManagerErr.CallerError openFailMsg), fs)
  | some f =>
    match io.writeErr with
    | some e => (Except.error (SectorManagerErr.ReceiverError e), fs)
    | none =>
      (Except.ok (write_padded data f).2,
       fsUpdate fs access (some (write_padded data f).1))

/-- `DiskManager::truncate_unsealed`: open for writing (CallerError on
failure), compute the padded length of `size` unpadded bytes (ReceiverError
on codec failure), then set the file length (ReceiverError on failure). -/
def truncate_unsealed (io : IoFaults) (fs : FS) (access : Nat) (size : Nat) :
    Except SectorManagerErr Unit × FS :=
  match fs access with
  | none => (Except.error (SectorManagerErr.CallerError openFailMsg), fs)
  | some f =>
    match io.codecErr with
    | some e => (Except.error (SectorManagerErr.ReceiverError e), fs)
    | none =>
      match io.setLenErr with
      | some e => (Except.error (SectorManagerErr.ReceiverError e), fs)
      | none =>
        (Except.ok (),
         fsUpdate fs access (some (setLen f (almost_truncate_to_unpadded_bytes size))))

/-- Fault oracle for the allocator's fallible calls: `create_dir_all`,
`File::create`, and the path-to-text conversion. -/
structure AllocFaults where
  createDirErr : Option String
  createFileErr : Option String
  pathNotUtf8 : Bool
deriving DecidableEq

/-- The fault-free allocation run. -/
def noAllocFaults : AllocFaults := ⟨none, none, false⟩

/-- `DiskManager::new_sector_access`: ensure the root directory exists,
create an empty file under the fresh name, and render the path as text;
every failure is a ReceiverError.  As in the source, the file is created
before the path-to-text conversion is attempted, so it exists even when
that conversion fails. -/
def new_sector_access (io : AllocFaults) (fs : FS) (name : Nat) :
    Except SectorManagerErr Nat × FS :=
  match io.createDirErr with
  | some e => (Except.error (SectorManagerErr.ReceiverError e), fs)
  | none =>
    match io.createFileErr with
    | some e => (Except.error (SectorManagerErr.ReceiverError e), fs)
    | none =>
      if io.pathNotUtf8 then
        (Except.error (SectorManagerErr.ReceiverError "could not create pbuf"),
         fsUpdate fs name (some []))
      else
        (Except.ok name, fsUpdate fs name (some []))

/-! ### Configuration profiles and store construction
(disk_backed_storage.rs) -/

/-- `REAL_SECTOR_SIZE` — padded sector bytes of the RealConfig store. -/
def REAL_SECTOR_SIZE : Nat := 128

/-- `FAST_SECTOR_SIZE` — padded sector bytes of the fast fake store. -/
def FAST_SECTOR_SIZE : Nat := 1024

/-- `SLOW_SECTOR_SIZE` — padded sector bytes of the slow fake store
(`1 << 30` in the source). -/
def SLOW_SECTOR_SIZE : Nat := 1073741824

/-- `FAST_DELAY_SECONDS`. -/
def FAST_DELAY_SECONDS : Nat := 10

/-- `SLOW_DELAY_SECONDS` (four hours). -/
def SLOW_DELAY_SECONDS : Nat := 4 * 60 * 60

/-- The two `SectorConfig` implementations of the source: `RealConfig`
(real sealing) and `FakeConfig` (simulated sealing with a declared
delay). -/
inductive SectorConfigImpl
  | RealConfig (sector_bytes : Nat)
  | FakeConfig (sector_bytes : Nat) (delay_seconds : Nat)
deriving DecidableEq

namespace SectorConfigImpl

/-- `SectorConfig::is_fake`. -/
def is_fake : SectorConfigImpl → Bool
  | RealConfig _ => false
  | FakeConfig _ _ => true

/-- `SectorConfig::simulate_delay_seconds`. -/
def simulate_delay_seconds : SectorConfigImpl → Option Nat
  | RealConfig _ => none
  | FakeConfig _ d => some d

/-- `SectorConfig::sector_bytes`. -/
def sectorBytes : SectorConfigImpl → Nat
  | RealConfig s => s
  | FakeConfig s _ => s

/-- `SectorConfig::max_unsealed_bytes_per_sector`: both implementations
derive it as `unpadded_bytes(sector_bytes)`. -/
def max_unsealed_bytes_per_sector : SectorConfigImpl → Nat
  | RealConfig s => unpadded_bytes s
  | FakeConfig s _ => unpadded_bytes s

end SectorConfigImpl

/-- `DiskManager`: the two root directories. -/
structure DiskManager where
  staging_path : String
  sealed_path : String
deriving DecidableEq

/-- `ConfiguredStore`: the profile selector. -/
inductive ConfiguredStore
  | Live
  | Test
  | ProofTest
deriving DecidableEq

/-- `ConcreteSectorStore`: a configuration paired with a manager. -/
structure ConcreteSectorStore where
  config : SectorConfigImpl
  manager : DiskManager
deriving DecidableEq

/-- `new_real_sector_store`. -/
def new_real_sector_store (sealed_path staging_path : String) : ConcreteSectorStore :=
  { config := SectorConfigImpl.RealConfig REAL_SECTOR_SIZE
    manager := { sealed_path := sealed_path, staging_path := staging_path } }

/-- `new_fake_sector_store`. -/
def new_fake_sector_store (sealed_path staging_path : String)
    (sector_bytes delay_seconds : Nat) : ConcreteSectorStore :=
  { config := SectorConfigImpl.FakeConfig sector_bytes delay_seconds
    manager := { sealed_path := sealed_path, staging_path := staging_path } }

/-- `new_slow_fake_sector_store`. -/
def new_slow_fake_sector_store (sealed_path staging_path : String) : ConcreteSectorStore :=
  new_fake_sector_store sealed_path staging_path SLOW_SECTOR_SIZE SLOW_DELAY_SECONDS

/-- `new_fast_fake_sector_store`. -/
def new_fast_fake_sector_store (sealed_path staging_path : String) : ConcreteSectorStore :=
  new_fake_sector_store sealed_path staging_path FAST_SECTOR_SIZE FAST_DELAY_SECONDS

/-- `new_sector_store`: profile dispatch.  `Live` (the
`init_new_sector_store` entry point) builds the slow fake store, `Test`
(`init_new_test_sector_store`) the fast fake store, and `ProofTest`
(`init_new_proof_test_sector_store`) the real store. -/
def new_sector_store (cs : ConfiguredStore) (sealed_path staging_path : String) :
    ConcreteSectorStore :=
  match cs with
  | ConfiguredStore.Live => new_slow_fake_sector_store sealed_path staging_path
  | ConfiguredStore.Test => new_fast_fake_sector_store sealed_path staging_path
  | ConfiguredStore.ProofTest => new_real_sector_store sealed_path staging_path

/-! ### Concrete fixtures used by witnesses and counterexamples -/

/-- A file system holding exactly one freshly created (empty) access. -/
def freshFS : FS := fun a => if a = 0 then some [] else none

/-- A file system holding one 504-byte padded file (the on-disk image of a
500-byte unpadded write). -/
def fs504 : FS := fun a => if a = 0 then some (List.replicate 504 0) else none

/-- The padded on-disk image of 33 unpadded bytes of value 2. -/
def file33 : List Nat := (write_padded (List.replicate 33 2) []).1

/-- A file system holding `file33` under access 0. -/
def fs33 : FS := fun a => if a = 0 then some file33 else none

/-- An all-faults oracle: codec, padded write and set_len all fail. -/
def ioAll : IoFaults := ⟨some "codec failed", some "write failed", some "setlen failed"⟩

/-- A fault oracle in which only `set_len` fails. -/
def ioSetLen : IoFaults := ⟨none, some "write failed", some "setlen failed"⟩

/-- A file system holding one nonempty file under access 1. -/
def fsOne : FS := fun a => if a = 1 then some [5] else none

/-! ### Supporting lemmas -/

theorem expandBitPos_eq (b : Nat) : expandBitPos b = b + 2 * (b / dataBits) := by
  unfold expandBitPos elementBits dataBits
  omega

/-- Accounting round-trip: padding then unpadding recovers the byte count. -/
theorem unpadded_expand (u : Nat) : unpadded_bytes (expand_bytes u) = u := by
  unfold unpadded_bytes expand_bytes contractBitPos expandBitPos elementBits dataBits
  omega

/-- `expand_bytes` is monotone non-decreasing. -/
theorem expand_bytes_mono {u v : Nat} (h : u ≤ v) : expand_bytes u ≤ expand_bytes v := by
  unfold expand_bytes expandBitPos elementBits dataBits
  omega

/-- Unpadding then padding never grows past the padded length. -/
theorem expand_unpadded_le (p : Nat) : expand_bytes (unpadded_bytes p) ≤ p := by
  unfold unpadded_bytes expand_bytes contractBitPos expandBitPos elementBits dataBits
  omega

/-- A byte count that fits in the unpadded view of a padded length pads to
at most that padded length. -/
theorem expand_le_of_le_unpadded {n p : Nat} (h : n ≤ unpadded_bytes p) :
    expand_bytes n ≤ p :=
  le_trans (expand_bytes_mono h) (expand_unpadded_le p)

theorem byteBits_length (b : Nat) : (byteBits b).length = 8 := by
  simp [byteBits]

theorem bytesToBits_length (bs : List Nat) :
    (bytesToBits bs).length = 8 * bs.length := by
  induction bs with
  | nil => rfl
  | cons b bs ih =>
    simp [bytesToBits, byteBits_length, ih]
    omega

theorem padBitsAux_length (d : List Bool) :
    ∀ k, k < dataBits →
      (padBitsAux k d).length = d.length + 2 * ((k + d.length) / dataBits) := by
  induction d with
  | nil =>
    intro k hk
    unfold dataBits at *
    simp [padBitsAux]
    omega
  | cons b bs ih =>
    intro k hk
    by_cases h : k + 1 = dataBits
    · have h0 : (0 : Nat) < dataBits := by unfold dataBits; omega
      simp [padBitsAux, h, ih 0 h0]
      unfold dataBits at *
      omega
    · have h1 : k + 1 < dataBits := by omega
      simp [padBitsAux, h, ih (k + 1) h1]
      unfold dataBits at *
      omega

theorem padBits_length (d : List Bool) :
    (padBits d).length = d.length + 2 * (d.length / dataBits) := by
  have h := padBitsAux_length d 0 (by unfold dataBits; omega)
  simpa [padBits] using h

theorem bitsToBytesAux_length (l : List Bool) :
    ∀ acc k, k < 8 →
      (bitsToBytesAux acc k l).length = (k + l.length + 7) / 8 := by
  induction l with
  | nil =>
    intro acc k hk
    by_cases h : k = 0
    · simp [bitsToBytesAux, h]
    · simp [bitsToBytesAux, h]
      omega
  | cons b bs ih =>
    intro acc k hk
    by_cases h : k = 7
    · simp [bitsToBytesAux, h, ih 0 0 (by omega)]
      omega
    · simp [bitsToBytesAux, h, ih _ (k + 1) (by omega)]
      omega

theorem bitsToBytes_length (l : List Bool) :
    (bitsToBytes l).length = (l.length + 7) / 8 := by
  have h := bitsToBytesAux_length l 0 0 (by omega)
  simpa [bitsToBytes] using h

/-- Content-level padding agrees with the arithmetic accounting: the byte
length of the padded stream of `d` is `expand_bytes d.length`. -/
theorem padded_content_length (d : List Nat) :
    (bitsToBytes (padBits (bytesToBits d))).length = expand_bytes d.length := by
  rw [bitsToBytes_length, padBits_length, bytesToBits_length]
  unfold expand_bytes expandBitPos elementBits dataBits
  omega

theorem fileData_nil : fileData [] = [] := rfl

/-- Writing to an empty file produces the padded image of the data. -/
theorem write_padded_nil (d : List Nat) :
    write_padded d [] = (bitsToBytes (padBits (bytesToBits d)), d.length) := by
  simp [write_padded, fileData_nil]

theorem write_padded_nil_fst (d : List Nat) :
    (write_padded d []).1 = bitsToBytes (padBits (bytesToBits d)) := by
  rw [write_padded_nil]

theorem fsUpdate_same (fs : FS) (a : Nat) (v : Option (List Nat)) :
    fsUpdate fs a v a = v := by
  simp [fsUpdate]

/-- Successful write: full characterization of result and state. -/
theorem write_ok (io : IoFaults) (fs : FS) (a : Nat) (f d : List Nat)
    (h : fs a = some f) (hw : io.writeErr = none) :
    write_unsealed io fs a d
      = (Except.ok d.length, fsUpdate fs a (some (write_padded d f).1)) := by
  simp [write_unsealed, h, hw, write_padded]

/-- Writing `d` to a fresh access and then measuring reports `d.length`. -/
theorem write_fresh_num (fs : FS) (a : Nat) (d : List Nat) (h : fs a = some []) :
    (num_unsealed_bytes noFaults (write_unsealed noFaults fs a d).2 a).1
      = Except.ok d.length := by
  simp [write_unsealed, h, noFaults, num_unsealed_bytes, fsUpdate, write_padded_nil,
        target_unpadded_bytes, padded_content_length, unpadded_expand]

/-! ### Claims -/

/-- C1 counterexample: a store constructed with `ConfiguredStore::Live`
(the `init_new_sector_store` entry point) is the slow fake store, so its
config reports `is_fake = true` and a four-hour simulated delay — not
`is_fake = false` with no delay as the claim attaches to this profile. -/
theorem C1_live_store_counterexample :
    (new_sector_store ConfiguredStore.Live "sealed" "staging").config.is_fake = true ∧
    (new_sector_store ConfiguredStore.Live "sealed" "staging").config.simulate_delay_seconds
      = some 14400 ∧
    ¬ ((new_sector_store ConfiguredStore.Live "sealed" "staging").config.is_fake = false ∧
       (new_sector_store ConfiguredStore.Live "sealed" "staging").config.simulate_delay_seconds
         = none) := by
  decide

/-- C1 (amended): the production-shaped configuration (`is_fake = false`,
no simulated delay, the 128-byte real sector size) belongs to the
`ProofTest` profile (`init_new_proof_test_sector_store`); `Test`
(`init_new_test_sector_store`) is the fast fake profile with the small
fixed size and short fixed delay; `Live` (`init_new_sector_store`) is the
slow fake profile with the large fixed size and hours-scale delay. -/
theorem C1_profile_table (sealed staging : String) :
    ((new_sector_store ConfiguredStore.ProofTest sealed staging).config.is_fake = false ∧
     (new_sector_store ConfiguredStore.ProofTest sealed staging).config.simulate_delay_seconds
       = none ∧
     (new_sector_store ConfiguredStore.ProofTest sealed staging).config.sectorBytes
       = REAL_SECTOR_SIZE) ∧
    ((new_sector_store ConfiguredStore.Test sealed staging).config.is_fake = true ∧
     (new_sector_store ConfiguredStore.Test sealed staging).config.simulate_delay_seconds
       = some FAST_DELAY_SECONDS ∧
     (new_sector_store ConfiguredStore.Test sealed staging).config.sectorBytes
       = FAST_SECTOR_SIZE) ∧
    ((new_sector_store ConfiguredStore.Live sealed staging).config.is_fake = true ∧
     (new_sector_store ConfiguredStore.Live sealed staging).config.simulate_delay_seconds
       = some SLOW_DELAY_SECONDS ∧
     (new_sector_store ConfiguredStore.Live sealed staging).config.sectorBytes
       = SLOW_SECTOR_SIZE ∧
     SLOW_DELAY_SECONDS = 4 * 60 * 60) :=
  ⟨⟨rfl, rfl, rfl⟩, ⟨rfl, rfl, rfl⟩, ⟨rfl, rfl, rfl, rfl⟩⟩

/-- C2 (code bug): `write_unsealed` performs in full, as an ordinary
success, a write that takes the access past the owning sector's configured
maximum.  For the `ProofTest` store the maximum is 127 unpadded bytes, yet
writing 128 bytes to a fresh access succeeds, reports 128 written, and
leaves 128 unpadded bytes in the access.  The source's own TODO says the
write should have been refused with a reported count of 0. -/
theorem C2_write_capacity_gap :
    SectorConfigImpl.max_unsealed_bytes_per_sector
        (new_sector_store ConfiguredStore.ProofTest "sealed" "staging").config = 127 ∧
    (write_unsealed noFaults freshFS 0 (List.replicate 128 2)).1 = Except.ok 128 ∧
    (num_unsealed_bytes noFaults
        (write_unsealed noFaults freshFS 0 (List.replicate 128 2)).2 0).1
      = Except.ok 128 ∧
    127 < 128 := by
  refine ⟨by decide, ?_, ?_, by omega⟩
  · simp [write_unsealed, freshFS, noFaults, write_padded]
  · have h := write_fresh_num freshFS 0 (List.replicate 128 2) rfl
    simpa using h

/-- C3: round-trip of write and measure — writing any unpadded byte
sequence `d` to a freshly created (empty) access and then calling
`num_unsealed_bytes` on that access returns exactly `d.length`. -/
theorem C3_write_measure_roundtrip (fs : FS) (a : Nat) (d : List Nat)
    (h : fs a = some []) :
    (num_unsealed_bytes noFaults (write_unsealed noFaults fs a d).2 a).1
      = Except.ok d.length :=
  write_fresh_num fs a d h

/-- C3 witness: the round-trip at a concrete three-byte write. -/
theorem C3_write_measure_roundtrip_witness :
    (num_unsealed_bytes noFaults
        (write_unsealed noFaults freshFS 0 [7, 7, 7]).2 0).1 = Except.ok 3 :=
  C3_write_measure_roundtrip freshFS 0 [7, 7, 7] rfl

/-- C4: the padding codec's accounting functions satisfy
`unpad(pad(U)) = U` for every unpadded byte count and `pad` is monotone
non-decreasing. -/
theorem C4_pad_accounting (u v : Nat) (h : u ≤ v) :
    unpadded_bytes (expand_bytes u) = u ∧ expand_bytes u ≤ expand_bytes v :=
  ⟨unpadded_expand u, expand_bytes_mono h⟩

/-- C4 witness: the accounting identities at u = 3, v = 500. -/
theorem C4_pad_accounting_witness :
    unpadded_bytes (expand_bytes 3) = 3 ∧ expand_bytes 3 ≤ expand_bytes 500 :=
  C4_pad_accounting 3 500 (by omega)

/-- C5: for every profile, `max_unsealed_bytes_per_sector` equals
`unpadded_bytes(sector_bytes)` exactly — it is derived through the codec's
inverse mapping, never hand-approximated.  Concretely this yields 127 for
the ProofTest store (128 sector bytes), 1016 for the Test store (1024) and
1065353216 for the Live store (2^30). -/
theorem C5_max_unsealed_via_codec (sealed staging : String) :
    (∀ cs : ConfiguredStore,
      SectorConfigImpl.max_unsealed_bytes_per_sector
          (new_sector_store cs sealed staging).config
        = unpadded_bytes
            (SectorConfigImpl.sectorBytes (new_sector_store cs sealed staging).config)) ∧
    SectorConfigImpl.max_unsealed_bytes_per_sector
        (new_sector_store ConfiguredStore.ProofTest sealed staging).config = 127 ∧
    SectorConfigImpl.max_unsealed_bytes_per_sector
        (new_sector_store ConfiguredStore.Test sealed staging).config = 1016 ∧
    SectorConfigImpl.max_unsealed_bytes_per_sector
        (new_sector_store ConfiguredStore.Live sealed staging).config = 1065353216 := by
  refine ⟨?_, ?_, ?_, ?_⟩
  · intro cs
    cases cs <;> rfl
  · show unpadded_bytes REAL_SECTOR_SIZE = 127
    decide
  · show unpadded_bytes FAST_SECTOR_SIZE = 1016
    decide
  · show unpadded_bytes SLOW_SECTOR_SIZE = 1065353216
    decide

/-- C6: the error taxonomy of the manager and allocator operations —
failure to open the access yields a CallerError; failure of the subsequent
internal step (codec computation, encode-and-write, boundary rewrite,
length-set) yields a ReceiverError; every allocator failure (directory
creation, file creation, path-to-text conversion) yields a ReceiverError;
UnclassifiedError is never produced and every operation is total on
caller-supplied data. -/
theorem C6_error_taxonomy (io io2 : IoFaults) (fs : FS) (aBad aOk : Nat)
    (f d : List Nat) (n : Nat) (e1 e2 e3 : String)
    (hbad : fs aBad = none) (hok : fs aOk = some f)
    (hc : io.codecErr = some e1) (hw : io.writeErr = some e2)
    (hc2 : io2.codecErr = none) (hs2 : io2.setLenErr = some e3) :
    (num_unsealed_bytes io fs aBad).1
      = Except.error (SectorManagerErr.CallerError openFailMsg) ∧
    (write_unsealed io fs aBad d).1
      = Except.error (SectorManagerErr.CallerError openFailMsg) ∧
    (truncate_unsealed io fs aBad n).1
      = Except.error (SectorManagerErr.CallerError openFailMsg) ∧
    (num_unsealed_bytes io fs aOk).1
      = Except.error (SectorManagerErr.ReceiverError e1) ∧
    (write_unsealed io fs aOk d).1
      = Except.error (SectorManagerErr.ReceiverError e2) ∧
    (truncate_unsealed io fs aOk n).1
      = Except.error (SectorManagerErr.ReceiverError e1) ∧
    (truncate_unsealed io2 fs aOk n).1
      = Except.error (SectorManagerErr.ReceiverError e3) ∧
    (∀ (ioA : AllocFaults) (fsA : FS) (name : Nat) (e : String),
        ioA.createDirErr = some e →
        (new_sector_access ioA fsA name).1
          = Except.error (SectorManagerErr.ReceiverError e)) ∧
    (∀ (ioA : AllocFaults) (fsA : FS) (name : Nat) (e : String),
        ioA.createDirErr = none → ioA.createFileErr = some e →
        (new_sector_access ioA fsA name).1
          = Except.error (SectorManagerErr.ReceiverError e)) ∧
    (∀ (ioA : AllocFaults) (fsA : FS) (name : Nat),
        ioA.createDirErr = none → ioA.createFileErr = none →
        ioA.pathNotUtf8 = true →
        (new_sector_access ioA fsA name).1
          = Except.error (SectorManagerErr.ReceiverError "could not create pbuf")) ∧
    (∀ (jo : IoFaults) (gs : FS) (a : Nat) (dd : List Nat) (m : Nat),
        notUnclassified (num_unsealed_bytes jo gs a).1 ∧
        notUnclassified (write_unsealed jo gs a dd).1 ∧
        notUnclassified (truncate_unsealed jo gs a m).1) ∧
    (∀ (ioA : AllocFaults) (fsA : FS) (name : Nat),
        notUnclassified (new_sector_access ioA fsA name).1) := by
  refine ⟨?_, ?_, ?_, ?_, ?_, ?_, ?_, ?_, ?_, ?_, ?_, ?_⟩
  · simp [num_unsealed_bytes, hbad]
  · simp [write_unsealed, hbad]
  · simp [truncate_unsealed, hbad]
  · simp [num_unsealed_bytes, hok, hc]
  · simp [write_unsealed, hok, hw]
  · simp [truncate_unsealed, hok, hc]
  · simp [truncate_unsealed, hok, hc2, hs2]
  · intro ioA fsA name e hd
    simp [new_sector_access, hd]
  · intro ioA fsA name e hd hf
    simp [new_sector_access, hd, hf]
  · intro ioA fsA name hd hf hp
    simp [new_sector_access, hd, hf, hp]
  · intro jo gs a dd m
    refine ⟨?_, ?_, ?_⟩
    · unfold num_unsealed_bytes
      cases gs a with
      | none => trivial
      | some g => cases jo.codecErr <;> trivial
    · unfold write_unsealed
      cases gs a with
      | none => trivial
      | some g => cases jo.writeErr <;> trivial
    · unfold truncate_unsealed
      cases gs a with
      | none => trivial
      | some g =>
        cases jo.codecErr with
        | none => cases jo.setLenErr <;> trivial
        | some e => trivial
  · intro ioA fsA name
    unfold new_sector_access
    cases ioA.createDirErr with
    | some e => trivial
    | none =>
      cases ioA.createFileErr with
      | some e => trivial
      | none =>
        by_cases hp : ioA.pathNotUtf8 <;> simp [hp, notUnclassified]

/-- C6 witness: the taxonomy at a concrete file system (access 0 absent,
access 1 a one-byte file), an all-faults oracle and a set_len-only-faults
oracle. -/
theorem C6_error_taxonomy_witness :
    (num_unsealed_bytes ioAll fsOne 0).1
      = Except.error (SectorManagerErr.CallerError openFailMsg) ∧
    (num_unsealed_bytes ioAll fsOne 1).1
      = Except.error (SectorManagerErr.ReceiverError "codec failed") ∧
    (write_unsealed ioAll fsOne 1 [9]).1
      = Except.error (SectorManagerErr.ReceiverError "write failed") ∧
    (truncate_unsealed ioSetLen fsOne 1 0).1
      = Except.error (SectorManagerErr.ReceiverError "setlen failed") ∧
    (new_sector_access ⟨some "mkdir failed", none, false⟩ fsOne 2).1
      = Except.error (SectorManagerErr.ReceiverError "mkdir failed") ∧
    notUnclassified (num_unsealed_bytes ioAll fsOne 0).1 := by
  have h := C6_error_taxonomy ioAll ioSetLen fsOne 0 1 [5] [9] 0
      "codec failed" "write failed" "setlen failed" rfl rfl rfl rfl rfl rfl
  obtain ⟨h1, _, _, h4, h5, _, h7, h8, _, _, h11, _⟩ := h
  exact ⟨h1, h4, h5, h7, h8 ⟨some "mkdir failed", none, false⟩ fsOne 2 "mkdir failed" rfl,
         (h11 ioAll fsOne 0 [9] 0).1⟩

/-- C7 counterexample: on a successful write, `write_unsealed` reports the
unpadded input length, not the number of padded bytes actually written —
writing 500 bytes to a fresh access returns 500 while the padded file
grows to 504 bytes (exactly the pair of facts asserted by the in-repo
test). -/
theorem C7_write_count_counterexample :
    (write_unsealed noFaults freshFS 0 (List.replicate 500 2)).1 = Except.ok 500 ∧
    (((write_unsealed noFaults freshFS 0 (List.replicate 500 2)).2 0).getD []).length
      = 504 ∧
    (500 : Nat) ≠ 504 := by
  have hw := write_ok noFaults freshFS 0 [] (List.replicate 500 2) rfl rfl
  refine ⟨?_, ?_, by omega⟩
  · rw [hw, List.length_replicate]
  · rw [hw]
    show ((fsUpdate freshFS 0 (some (write_padded (List.replicate 500 2) []).1) 0).getD
        []).length = 504
    rw [fsUpdate_same, Option.getD_some, write_padded_nil_fst, padded_content_length,
        List.length_replicate]
    decide

/-- C7 (amended): on success `write_unsealed` returns the unpadded input
length `data.length` (the count of input bytes consumed); callers needing
the padded on-disk count must measure the file separately. -/
theorem C7_write_returns_input_length (io : IoFaults) (fs : FS) (a : Nat)
    (f d : List Nat) (h : fs a = some f) (hw : io.writeErr = none) :
    (write_unsealed io fs a d).1 = Except.ok d.length := by
  simp [write_unsealed, h, hw, write_padded]

/-- C7 witness: the amended return value at a concrete two-byte write. -/
theorem C7_write_returns_input_length_witness :
    (write_unsealed noFaults freshFS 0 [9, 9]).1 = Except.ok 2 :=
  C7_write_returns_input_length noFaults freshFS 0 [] [9, 9] rfl rfl

/-- C8 counterexample: truncation does not rewrite the trailing byte to
make its bits reflect the shorter logical content.  Starting from the
padded image of 33 bytes of value 2 and truncating to 32 unpadded bytes,
the resulting file differs from the clean padded image of the 32-byte
content: both are 33 bytes long, but the trailing byte keeps the stale
value 8 (`2 << 2`, the remains of the truncated 33rd byte) where the clean
image has 0.  This is exactly the behaviour the in-repo test asserts. -/
theorem C8_truncate_rewrite_counterexample :
    ((truncate_unsealed noFaults fs33 0 32).2 0).getD []
      ≠ (write_padded (List.replicate 32 2) []).1 ∧
    (((truncate_unsealed noFaults fs33 0 32).2 0).getD []).length
      = ((write_padded (List.replicate 32 2) []).1).length ∧
    ((((truncate_unsealed noFaults fs33 0 32).2 0).getD []).getD 32 0) = 8 ∧
    (((write_padded (List.replicate 32 2) []).1).getD 32 0) = 0 := by
  refine ⟨by decide, by decide, by decide, by decide⟩

/-- C8 (amended): for every access currently holding at least `n` unpadded
bytes, after a successful `truncate_unsealed` to `n` the measured unpadded
length is `n` and the on-disk padded length equals `pad(n)`; the file is
cut to its first `pad(n)` bytes by a direct length-set, so the kept prefix
(including the in-range bits of the trailing byte) is unchanged and bits
beyond the logical content may retain stale data. -/
theorem C8_truncate_accounting (fs : FS) (a : Nat) (f : List Nat) (n : Nat)
    (h : fs a = some f) (hn : n ≤ unpadded_bytes f.length) :
    (truncate_unsealed noFaults fs a n).1 = Except.ok () ∧
    (truncate_unsealed noFaults fs a n).2 a = some (f.take (expand_bytes n)) ∧
    (f.take (expand_bytes n)).length = expand_bytes n ∧
    (num_unsealed_bytes noFaults (truncate_unsealed noFaults fs a n).2 a).1
      = Except.ok n := by
  have hle : expand_bytes n ≤ f.length := expand_le_of_le_unpadded hn
  have hlen : (f.take (expand_bytes n)).length = expand_bytes n := by
    simp [List.length_take]
    omega
  refine ⟨?_, ?_, hlen, ?_⟩
  · simp [truncate_unsealed, h, noFaults]
  · simp [truncate_unsealed, h, noFaults, fsUpdate, setLen,
          almost_truncate_to_unpadded_bytes, hle]
  · simp [truncate_unsealed, h, noFaults, num_unsealed_bytes, fsUpdate, setLen,
          almost_truncate_to_unpadded_bytes, hle, target_unpadded_bytes, hlen,
          unpadded_expand]

/-- C8 witness: the amended truncation property on a 504-byte padded file
(500 unpadded bytes) truncated to 32 unpadded bytes: pad(32) = 33 bytes
stay on disk and the measure reports 32. -/
theorem C8_truncate_accounting_witness :
    (truncate_unsealed noFaults fs504 0 32).1 = Except.ok () ∧
    (truncate_unsealed noFaults fs504 0 32).2 0
      = some ((List.replicate 504 0).take (expand_bytes 32)) ∧
    ((List.replicate 504 0).take (expand_bytes 32)).length = expand_bytes 32 ∧
    (num_unsealed_bytes noFaults (truncate_unsealed noFaults fs504 0 32).2 0).1
      = Except.ok 32 :=
  C8_truncate_accounting fs504 0 (List.replicate 504 0) 32 rfl
    (by rw [List.length_replicate]; decide)

/-- C9: `to_response_status` is a pure, total function mapping Ok to
SBNoError, UnclassifiedError to SBUnclassifiedError, CallerError to
SBCallerError and ReceiverError to SBReceiverError, with no other
outcome. -/
theorem C9_status_mapping (α : Type) (x : α) (m : String)
    (r : Except SectorManagerErr α) :
    to_response_status (Except.ok x) = SBResponseStatus.SBNoError ∧
    to_response_status
        (Except.error (SectorManagerErr.UnclassifiedError m) : Except SectorManagerErr α)
      = SBResponseStatus.SBUnclassifiedError ∧
    to_response_status
        (Except.error (SectorManagerErr.CallerError m) : Except SectorManagerErr α)
      = SBResponseStatus.SBCallerError ∧
    to_response_status
        (Except.error (SectorManagerErr.ReceiverError m) : Except SectorManagerErr α)
      = SBResponseStatus.SBReceiverError ∧
    (to_response_status r = SBResponseStatus.SBNoError ∨
     to_response_status r = SBResponseStatus.SBUnclassifiedError ∨
     to_response_status r = SBResponseStatus.SBCallerError ∨
     to_response_status r = SBResponseStatus.SBReceiverError) := by
  refine ⟨rfl, rfl, rfl, rfl, ?_⟩
  cases r with
  | ok y => exact Or.inl rfl
  | error e =>
    cases e with
    | UnclassifiedError s => exact Or.inr (Or.inl rfl)
    | CallerError s => exact Or.inr (Or.inr (Or.inl rfl))
    | ReceiverError s => exact Or.inr (Or.inr (Or.inr rfl))

/-- C10: `num_unsealed_bytes` is a pure observation — the file system
(every file's contents, hence every length) is identical before and after
the call, whether it succeeds, the open fails, or the codec step fails. -/
theorem C10_num_unsealed_frame (io : IoFaults) (fs : FS) (a : Nat) :
    (num_unsealed_bytes io fs a).2 = fs := by
  unfold num_unsealed_bytes
  cases fs a with
  | none => rfl
  | some f => cases io.codecErr <;> rfl

end SectorBase
